import Mathlib

/-!
Shallow embedding of `minestudio/simulator/callbacks/barrier_box.py`
(class `BarrierBoxCallback`): construction with block-type validation,
the configuration factory, the fill-command generator, and the reset hook.
Machine integers are modelled as `Int`; the floor division `//` of the
source language is `Int.fdiv`; the constructor, which can raise, returns
`Except`.
-/

/-- The single-quote character, used to reproduce the formatted error
message of the source verbatim. -/
def squote : String := "\x27"

/-- The callback object: the five fields assigned by the constructor. -/
structure BarrierBoxCallback where
  size : Int
  height : Int
  block_type : String
  include_floor : Bool
  include_ceiling : Bool
deriving Repr, DecidableEq

/-- The fixed list `valid_blocks` checked by the constructor. -/
def valid_blocks : List String := ["barrier", "bedrock", "glass"]

/-- How the source language renders the list `valid_blocks` inside the
formatted error message. -/
def valid_blocks_repr : String :=
  "[" ++ squote ++ "barrier" ++ squote ++ ", " ++ squote ++ "bedrock" ++ squote ++
    ", " ++ squote ++ "glass" ++ squote ++ "]"

/-- The constructor: stores the five parameters unchanged, then validates
`block_type` against `valid_blocks`, raising (modelled as `Except.error`)
with the formatted message otherwise. No other parameter is checked. -/
def init (size height : Int) (block_type : String)
    (include_floor include_ceiling : Bool) : Except String BarrierBoxCallback :=
  let self : BarrierBoxCallback :=
    { size := size, height := height, block_type := block_type,
      include_floor := include_floor, include_ceiling := include_ceiling }
  if self.block_type ∈ valid_blocks then
    Except.ok self
  else
    Except.error ("block_type must be one of " ++ valid_blocks_repr ++
      ", got " ++ squote ++ self.block_type ++ squote)

/-- One fill command string, exactly as each formatted string literal in
`_generate_box_commands` renders it. -/
def mkFill (x1 y1 z1 x2 y2 z2 : Int) (block : String) : String :=
  "/fill " ++ toString x1 ++ " " ++ toString y1 ++ " " ++ toString z1 ++
    " " ++ toString x2 ++ " " ++ toString y2 ++ " " ++ toString z2 ++
    " " ++ block

/-- `half_size = self.size // 2` (floor division), as computed both in
`after_reset` and in `_generate_box_commands`. -/
def half_size (self : BarrierBoxCallback) : Int := Int.fdiv self.size 2

/-- `x_min = center_x - half_size` of `_generate_box_commands`. -/
def x_min (self : BarrierBoxCallback) (center_x : Int) : Int :=
  center_x - half_size self

/-- `x_max = center_x + half_size` of `_generate_box_commands`. -/
def x_max (self : BarrierBoxCallback) (center_x : Int) : Int :=
  center_x + half_size self

/-- `z_min = center_z - half_size` of `_generate_box_commands`. -/
def z_min (self : BarrierBoxCallback) (center_z : Int) : Int :=
  center_z - half_size self

/-- `z_max = center_z + half_size` of `_generate_box_commands`. -/
def z_max (self : BarrierBoxCallback) (center_z : Int) : Int :=
  center_z + half_size self

/-- `_generate_box_commands`: the four wall commands in order north, south,
west, east, then the optional floor command, then the optional ceiling
command. -/
def generate_box_commands (self : BarrierBoxCallback)
    (center_x center_z base_y : Int) : List String :=
  let block := "minecraft:" ++ self.block_type
  let xmin := x_min self center_x
  let xmax := x_max self center_x
  let zmin := z_min self center_z
  let zmax := z_max self center_z
  let ymin := base_y
  let ymax := base_y + self.height
  let commands : List String :=
    [mkFill xmin ymin zmin xmax ymax zmin block,
     mkFill xmin ymin zmax xmax ymax zmax block,
     mkFill xmin ymin zmin xmin ymax zmax block,
     mkFill xmax ymin zmin xmax ymax zmax block]
  let commands :=
    if self.include_floor then
      commands ++ [mkFill xmin ymin zmin xmax ymin zmax block]
    else commands
  let commands :=
    if self.include_ceiling then
      commands ++ [mkFill xmin ymax zmin xmax ymax zmax block]
    else commands
  commands

/-- State-passing view of the `_generate_box_commands` method call: the
translated body only reads fields of `self` and never assigns to them, so
the method returns its command list together with the unchanged object. -/
def generate_box_commands_st (self : BarrierBoxCallback)
    (center_x center_z base_y : Int) : List String × BarrierBoxCallback :=
  (generate_box_commands self center_x center_z base_y, self)

/-- The two narrow simulator interfaces consumed by `after_reset`,
modelled as injected functions: `sim.env.execute_cmd` returning an
observation, a reward, a done flag and an info value, and
`sim._wrap_obs_info`. -/
structure Sim (Obs Info R : Type) where
  execute_cmd : String → Obs × R × Bool × Info
  wrap_obs_info : Obs → Info → Obs × Info

/-- `after_reset`: computes `half_size`, generates the commands centered at
the origin with `half_size` passed as the base elevation argument, rebinds
obs/info from each command execution in turn, and wraps the final pair. -/
def after_reset {Obs Info R : Type} (self : BarrierBoxCallback)
    (sim : Sim Obs Info R) (obs : Obs) (info : Info) : Obs × Info :=
  let commands := generate_box_commands self 0 0 (half_size self)
  let oi := List.foldl
    (fun _ command =>
      let r := sim.execute_cmd command
      (r.1, r.2.2.2))
    (obs, info) commands
  sim.wrap_obs_info oi.1 oi.2

/-- The configuration mapping under the key as `create_from_conf` reads it:
each field is present or absent. -/
structure BoxConf where
  size : Option Int
  height : Option Int
  block_type : Option String
  include_floor : Option Bool
  include_ceiling : Option Bool
deriving Repr, DecidableEq

/-- `create_from_conf`: `none` models a configuration with no
`barrier_box` key, in which case no callback is produced; otherwise the
constructor is called with each field read with its default. -/
def create_from_conf (data : Option BoxConf) :
    Option (Except String BarrierBoxCallback) :=
  match data with
  | some box_config =>
      some (init (box_config.size.getD 25) (box_config.height.getD 10)
        (box_config.block_type.getD "barrier")
        (box_config.include_floor.getD false)
        (box_config.include_ceiling.getD false))
  | none => none

/-- C1: at the default configuration (size 25, height 10), the reset hook
passes `half_size = 12` — not `0` — as the base elevation, so every
generated fill command spans y from 12 to 22 rather than from 0 to 10. -/
theorem after_reset_base_elevation_bug :
    half_size ⟨25, 10, "barrier", false, false⟩ = 12 ∧
    generate_box_commands ⟨25, 10, "barrier", false, false⟩ 0 0
      (half_size ⟨25, 10, "barrier", false, false⟩) =
      ["/fill -12 12 -12 12 22 -12 minecraft:barrier",
       "/fill -12 12 12 12 22 12 minecraft:barrier",
       "/fill -12 12 -12 -12 22 12 minecraft:barrier",
       "/fill 12 12 -12 12 22 12 minecraft:barrier"] := by
  exact ⟨rfl, rfl⟩

/-- C2: construction fails exactly when `block_type` is outside
`valid_blocks`; the error message cites the offending value and the valid
set; any size, height and flag values are accepted unchecked. -/
theorem init_validates_block_type (size height : Int) (bt : String)
    (fl cl : Bool) :
    (bt ∈ valid_blocks →
      init size height bt fl cl =
        Except.ok ⟨size, height, bt, fl, cl⟩) ∧
    (bt ∉ valid_blocks →
      init size height bt fl cl =
        Except.error ("block_type must be one of " ++ valid_blocks_repr ++
          ", got " ++ squote ++ bt ++ squote)) := by
  constructor <;> intro h <;> simp [init, h]

/-- Closed instance of `init_validates_block_type` at a valid and at an
invalid block type, with non-positive size and height. -/
theorem init_validates_block_type_witness :
    "barrier" ∈ valid_blocks ∧ "stone" ∉ valid_blocks ∧
    init 25 10 "barrier" false false =
      Except.ok ⟨25, 10, "barrier", false, false⟩ ∧
    init (-3) 0 "stone" true true =
      Except.error ("block_type must be one of " ++ valid_blocks_repr ++
        ", got " ++ squote ++ "stone" ++ squote) :=
  ⟨by decide, by decide,
   (init_validates_block_type 25 10 "barrier" false false).1 (by decide),
   (init_validates_block_type (-3) 0 "stone" true true).2 (by decide)⟩

/-- C5: the factory produces no callback when the `barrier_box` key is
absent, and produces the all-defaults callback when the key maps to an
empty configuration. -/
theorem create_from_conf_absent_and_defaults :
    create_from_conf none = none ∧
    create_from_conf (some ⟨none, none, none, none, none⟩) =
      some (Except.ok ⟨25, 10, "barrier", false, false⟩) :=
  ⟨rfl, rfl⟩

/-- C6: for any valid block type and arbitrary size, height and flags,
construction succeeds and stores every supplied parameter unchanged. -/
theorem init_stores_params (size height : Int) (bt : String) (fl cl : Bool)
    (h : bt ∈ valid_blocks) :
    init size height bt fl cl = Except.ok ⟨size, height, bt, fl, cl⟩ := by
  simp [init, h]

/-- Closed instance of `init_stores_params` at block type glass with a
negative size. -/
theorem init_stores_params_witness :
    "glass" ∈ valid_blocks ∧
    init (-7) 0 "glass" true false = Except.ok ⟨-7, 0, "glass", true, false⟩ :=
  ⟨by decide, init_stores_params (-7) 0 "glass" true false (by decide)⟩

/-- C7: threading the callback through the state-passing view of the
generator, a second call with identical inputs returns the identical
command list, and the callback object comes back unchanged. -/
theorem generate_box_commands_pure (self : BarrierBoxCallback)
    (center_x center_z base_y : Int) :
    (generate_box_commands_st self center_x center_z base_y).2 = self ∧
    (generate_box_commands_st
        (generate_box_commands_st self center_x center_z base_y).2
        center_x center_z base_y).1 =
      (generate_box_commands_st self center_x center_z base_y).1 :=
  ⟨rfl, rfl⟩

/-- Membership in a conditionally extended list comes from the base list or
is the appended element. -/
theorem mem_ite_append {α : Type} {s a : α} {l : List α} {b : Bool}
    (h : s ∈ if b then l ++ [a] else l) : s ∈ l ∨ s = a := by
  cases b with
  | false => exact Or.inl h
  | true => simpa using List.mem_append.mp h

/-- C3: the first four commands are the north, south, west and east wall
slabs, each spanning from center minus half to center plus half with
`half = size // 2` and y from the base to base plus height, restricted to
its face. -/
theorem generate_walls (self : BarrierBoxCallback) (x z y : Int) :
    (generate_box_commands self x z y).take 4 =
      [mkFill (x - Int.fdiv self.size 2) y (z - Int.fdiv self.size 2)
         (x + Int.fdiv self.size 2) (y + self.height) (z - Int.fdiv self.size 2)
         ("minecraft:" ++ self.block_type),
       mkFill (x - Int.fdiv self.size 2) y (z + Int.fdiv self.size 2)
         (x + Int.fdiv self.size 2) (y + self.height) (z + Int.fdiv self.size 2)
         ("minecraft:" ++ self.block_type),
       mkFill (x - Int.fdiv self.size 2) y (z - Int.fdiv self.size 2)
         (x - Int.fdiv self.size 2) (y + self.height) (z + Int.fdiv self.size 2)
         ("minecraft:" ++ self.block_type),
       mkFill (x + Int.fdiv self.size 2) y (z - Int.fdiv self.size 2)
         (x + Int.fdiv self.size 2) (y + self.height) (z + Int.fdiv self.size 2)
         ("minecraft:" ++ self.block_type)] := by
  cases hf : self.include_floor <;> cases hc : self.include_ceiling <;>
    simp [generate_box_commands, x_min, x_max, z_min, z_max, half_size, hf, hc]

/-- C4: the output is the walls in the order north, south, west, east,
then one floor command at the base elevation exactly when the floor flag is
set, then one ceiling command at base plus height exactly when the ceiling
flag is set; hence 4, 5 or 6 commands according to the flags. -/
theorem generate_order_and_count (self : BarrierBoxCallback) (x z y : Int) :
    generate_box_commands self x z y =
      [mkFill (x_min self x) y (z_min self z) (x_max self x)
         (y + self.height) (z_min self z) ("minecraft:" ++ self.block_type),
       mkFill (x_min self x) y (z_max self z) (x_max self x)
         (y + self.height) (z_max self z) ("minecraft:" ++ self.block_type),
       mkFill (x_min self x) y (z_min self z) (x_min self x)
         (y + self.height) (z_max self z) ("minecraft:" ++ self.block_type),
       mkFill (x_max self x) y (z_min self z) (x_max self x)
         (y + self.height) (z_max self z) ("minecraft:" ++ self.block_type)]
      ++ (if self.include_floor then
            [mkFill (x_min self x) y (z_min self z) (x_max self x) y
               (z_max self z) ("minecraft:" ++ self.block_type)]
          else [])
      ++ (if self.include_ceiling then
            [mkFill (x_min self x) (y + self.height) (z_min self z)
               (x_max self x) (y + self.height) (z_max self z)
               ("minecraft:" ++ self.block_type)]
          else []) ∧
    (generate_box_commands self x z y).length =
      4 + (if self.include_floor then 1 else 0) +
        (if self.include_ceiling then 1 else 0) := by
  cases hf : self.include_floor <;> cases hc : self.include_ceiling <;>
    simp [generate_box_commands, hf, hc]

/-- C8: on each horizontal axis the footprint runs from center minus half
to center plus half inclusive, hence spans 2 * (size // 2) + 1 blocks; this
equals size exactly when size is odd, and equals size + 1 when size is
even. -/
theorem footprint_span (self : BarrierBoxCallback) (x z : Int) :
    (x_max self x - x_min self x + 1 = 2 * Int.fdiv self.size 2 + 1) ∧
    (z_max self z - z_min self z + 1 = 2 * Int.fdiv self.size 2 + 1) ∧
    (Odd self.size → x_max self x - x_min self x + 1 = self.size) ∧
    (Even self.size → x_max self x - x_min self x + 1 = self.size + 1) ∧
    (x_max self x - x_min self x + 1 = self.size ↔ Odd self.size) := by
  unfold x_min x_max z_min z_max half_size
  rw [Int.fdiv_eq_ediv _ (by norm_num), Int.odd_iff, Int.even_iff]
  omega

/-- Closed instances of `footprint_span` at an odd and at an even size:
both footprints span 25 blocks. -/
theorem footprint_span_witness :
    Odd (25 : Int) ∧ Even (24 : Int) ∧
    x_max ⟨25, 10, "barrier", false, false⟩ 0 -
      x_min ⟨25, 10, "barrier", false, false⟩ 0 + 1 = 25 ∧
    x_max ⟨24, 10, "barrier", false, false⟩ 0 -
      x_min ⟨24, 10, "barrier", false, false⟩ 0 + 1 = 25 :=
  ⟨⟨12, by norm_num⟩, ⟨12, by norm_num⟩,
   (footprint_span ⟨25, 10, "barrier", false, false⟩ 0 0).2.2.1 ⟨12, by norm_num⟩,
   (footprint_span ⟨24, 10, "barrier", false, false⟩ 0 0).2.2.2.1 ⟨12, by norm_num⟩⟩

/-- C9: the pair returned by the reset hook never depends on the incoming
observation and info: at least the four wall commands are always executed,
and each execution rebinds both values. -/
theorem after_reset_const_in_obs_info {Obs Info R : Type}
    (self : BarrierBoxCallback) (sim : Sim Obs Info R)
    (obs1 obs2 : Obs) (info1 info2 : Info) :
    after_reset self sim obs1 info1 = after_reset self sim obs2 info2 := by
  cases hf : self.include_floor <;> cases hc : self.include_ceiling <;>
    simp [after_reset, generate_box_commands, hf, hc]

/-- C10: with a valid block type and nonnegative size and height, every
generated string is a fill command over an ordered pair of corners: it
renders six integer coordinates with x1 ≤ x2, y1 ≤ y2 and z1 ≤ z2 followed
by the stored block type under the `minecraft:` prefix. -/
theorem commands_well_formed (self : BarrierBoxCallback) (x z y : Int)
    (hs : 0 ≤ self.size) (hh : 0 ≤ self.height)
    (hb : self.block_type ∈ valid_blocks) :
    ∀ s ∈ generate_box_commands self x z y,
      ∃ x1 y1 z1 x2 y2 z2 : Int,
        s = mkFill x1 y1 z1 x2 y2 z2 ("minecraft:" ++ self.block_type) ∧
        x1 ≤ x2 ∧ y1 ≤ y2 ∧ z1 ≤ z2 := by
  have hhalf : 0 ≤ half_size self := by
    unfold half_size
    rw [Int.fdiv_eq_ediv _ (by norm_num)]
    omega
  have hx : x_min self x ≤ x_max self x := by
    unfold x_min x_max
    omega
  have hz : z_min self z ≤ z_max self z := by
    unfold z_min z_max
    omega
  intro s hmem
  simp only [generate_box_commands] at hmem
  rcases mem_ite_append hmem with hmem | rfl
  · rcases mem_ite_append hmem with hmem | rfl
    · simp only [List.mem_cons, List.not_mem_nil, or_false] at hmem
      rcases hmem with rfl | rfl | rfl | rfl
      · exact ⟨_, _, _, _, _, _, rfl, hx, by omega, le_refl _⟩
      · exact ⟨_, _, _, _, _, _, rfl, hx, by omega, le_refl _⟩
      · exact ⟨_, _, _, _, _, _, rfl, le_refl _, by omega, hz⟩
      · exact ⟨_, _, _, _, _, _, rfl, le_refl _, by omega, hz⟩
    · exact ⟨_, _, _, _, _, _, rfl, hx, le_refl _, hz⟩
  · exact ⟨_, _, _, _, _, _, rfl, hx, le_refl _, hz⟩

/-- Closed instance of `commands_well_formed` at the default configuration:
the north wall command is a well-formed fill descriptor. -/
theorem commands_well_formed_witness :
    (0 : Int) ≤ 25 ∧ (0 : Int) ≤ 10 ∧ "barrier" ∈ valid_blocks ∧
    (∃ x1 y1 z1 x2 y2 z2 : Int,
      "/fill -12 0 -12 12 10 -12 minecraft:barrier" =
        mkFill x1 y1 z1 x2 y2 z2 ("minecraft:" ++ "barrier") ∧
      x1 ≤ x2 ∧ y1 ≤ y2 ∧ z1 ≤ z2) :=
  ⟨by norm_num, by norm_num, by decide,
   commands_well_formed ⟨25, 10, "barrier", false, false⟩ 0 0 0
     (by norm_num) (by norm_num) (by decide)
     "/fill -12 0 -12 12 10 -12 minecraft:barrier" (by decide)⟩

/-- Closed instance of `after_reset_const_in_obs_info`: with a concrete
simulator, differing incoming observation/info pairs give equal results. -/
theorem after_reset_const_in_obs_info_witness :
    after_reset ⟨25, 10, "barrier", false, false⟩
      (⟨fun c => (c.length, 0, false, 0), fun o i => (o, i)⟩ : Sim Nat Nat Nat)
      1 2 =
    after_reset ⟨25, 10, "barrier", false, false⟩
      (⟨fun c => (c.length, 0, false, 0), fun o i => (o, i)⟩ : Sim Nat Nat Nat)
      3 4 :=
  after_reset_const_in_obs_info ⟨25, 10, "barrier", false, false⟩
    ⟨fun c => (c.length, 0, false, 0), fun o i => (o, i)⟩ 1 3 2 4
